import Mathlib

/-!
# Verification of the goture future library

A shallow embedding of the goture package (a Go future/promise library)
and proofs about it.  The embedding follows the Go sources:

* `goture.go` — `SuccessResult`, `Task`, `Goture.Wait`, `NewGoture`,
  `NewParallelGoture`;
* `helper.go` — `recoverCancel`, `recoverCancelForParallel`,
  `makeErrorFromPanic`.

Go `error` interface values are modelled by `Option GoError` (`none` is the
nil interface value, `some e` a non-nil error).  Go panic values
(`interface\x7b\x7d`) are modelled by `PanicValue`.  A context's committed
cancellation cause (`context.WithCancelCause` / `context.Cause`) is a
write-once slot: the first commit wins and later commits are no-ops; if the
parent context is already cancelled when the child is derived, the child
inherits the parent's cause immediately, before any commit by this library.

The parallel aggregator (`NewParallelGoture` with N ≥ 1 tasks) is modelled
twice, at two levels that are connected by theorems:

* functionally: the coordinator goroutine's loop over the N channel values
  in arrival order (`coordinatorFold`, `coordinatorCommit`);
* operationally: a labelled transition system `AggStep` over `AggState`,
  with one transition for a task goroutine sending its report into the
  buffered channel (guarded by the channel's capacity N), one for the
  coordinator receiving a report, and one for the coordinator committing
  the shared context's cause after all N reports are drained.
-/

/-- Non-nil Go `error` interface values relevant to the library.
`successResult` is the exported sentinel `SuccessResult\x7b\x7d` from
`goture.go` (it implements `error` with an empty message); `errorString s`
covers errors carrying a message, as produced by `errors.New` /
`fmt.Errorf` (in particular `fmt.Errorf("%v", r)` in the panic helpers);
`canceled` and `deadlineExceeded` are the causes the `context` package
itself commits on plain cancellation and on deadline expiry. -/
inductive GoError where
  | successResult
  | errorString (s : String)
  | canceled
  | deadlineExceeded
  deriving DecidableEq, Repr

/-- A Go panic value (`interface\x7b\x7d`): either a value that satisfies
the `error` interface, or any other value, represented by its `fmt` `%v`
rendering (which is all the helpers use of it). -/
inductive PanicValue where
  | errValue (e : GoError)
  | nonError (s : String)
  deriving DecidableEq, Repr

/-- How one invocation of a caller-supplied task terminates: a normal
return carrying its `error` result (`none` = nil), or a panic with the
given value. -/
inductive TaskOutcome where
  | ret (e : Option GoError)
  | panics (v : PanicValue)
  deriving DecidableEq, Repr

/-- `makeErrorFromPanic` (helper.go): if the recovered value satisfies the
`error` interface it is returned verbatim, otherwise it is wrapped by
`fmt.Errorf("%v", r)`, an error whose message is the value's rendering.
`recoverCancel` and `recoverCancelForParallel` perform the same conversion
inline before cancelling resp. sending. -/
def makeErrorFromPanic : PanicValue → GoError
  | .errValue e => e
  | .nonError s => .errorString s

/-- `Goture.Wait` (goture.go): after the future's context is done, read
`context.Cause`; a cause of concrete type `SuccessResult` is reported as
nil, any other cause is returned as-is.  The argument is the committed
cause, the result is the Go `error` return value. -/
def Goture.Wait (cause : GoError) : Option GoError :=
  match cause with
  | .successResult => none
  | c => some c

/-- First-commit-wins on a `context.WithCancelCause` context: if the parent
is cancelled (with cause `p`) before the library's own commit, the child's
cause is `p` and the library's later `cancel` is a no-op; otherwise the
library's commit `lib` sticks. -/
def committedCause (parentCancel : Option GoError) (lib : GoError) : GoError :=
  match parentCancel with
  | some p => p
  | none => lib

/-- The body of the goroutine spawned by `NewGoture` (goture.go), as the
cause it commits to the child context: `cancel(err)` on a non-nil return,
`cancel(SuccessResult\x7b\x7d)` on a nil return, and on a panic the deferred
`recoverCancel(cancel)` commits the converted panic value. -/
def newGotureCommit : TaskOutcome → GoError
  | .ret (some e) => e
  | .ret none => .successResult
  | .panics v => makeErrorFromPanic v

/-- The report a parallel worker goroutine sends into the `completed`
channel (`NewParallelGoture` in goture.go): `completed <- task(localCtx)`
on a normal return, and on a panic the deferred
`recoverCancelForParallel(completed)` sends the converted panic value.
Exactly one of the two sends executes. -/
def unitReport : TaskOutcome → Option GoError
  | .ret e => e
  | .panics v => some (makeErrorFromPanic v)

/-- The complete list of values a parallel worker goroutine ever sends into
the `completed` channel: the normal-return send and the panic-path send are
mutually exclusive, so it is one value in every case. -/
def unitSends (o : TaskOutcome) : List (Option GoError) := [unitReport o]

/-- The coordinator goroutine's loop in `NewParallelGoture`:
`if err := <-completed; err != nil && firstError == nil \x7b firstError = err \x7d`,
folded over the reports in arrival order, starting from the current value
of the `firstError` variable. -/
def coordinatorFold (firstError : Option GoError) :
    List (Option GoError) → Option GoError
  | [] => firstError
  | r :: rest =>
      coordinatorFold (if r ≠ none ∧ firstError = none then r else firstError) rest

/-- The cause the coordinator goroutine commits after draining all reports:
`cancel(firstError)` if the loop recorded one, else
`cancel(SuccessResult\x7b\x7d)`. -/
def coordinatorCommit (reports : List (Option GoError)) : GoError :=
  match coordinatorFold none reports with
  | some e => e
  | none => .successResult

/-- The first non-nil entry of a list of reports, in order — the
specification's "first non-nil error by arrival order". -/
def firstNonNil : List (Option GoError) → Option GoError
  | [] => none
  | none :: rest => firstNonNil rest
  | some e :: _ => some e

/-- `NewParallelGoture` with an empty task list (goture.go): derive a child
context from the parent and immediately `cancel(SuccessResult\x7b\x7d)`,
spawning nothing.  If the parent is already cancelled with cause `p` the
child inherited `p` at derivation and the `cancel` is a no-op. -/
def newParallelGotureZeroCause (parentCancel : Option GoError) : GoError :=
  committedCause parentCancel .successResult

/-!
## Operational model of the parallel aggregator

`NewParallelGoture` with `n ≥ 1` tasks creates one shared child context,
the buffered channel `completed := make(chan error, len(tasks))`, spawns one
worker goroutine per task, and one coordinator goroutine.  `AggState`
records the shared mutable state; `AggStep` is one scheduler step.  The
parameter `outcomes i` is the (fixed) way task `i` terminates.  The model
covers runs in which the caller's parent context is not independently
cancelled, so the only commit to the shared context is the coordinator's.
-/

/-- Shared state of one `NewParallelGoture` run with `n` tasks:
`sent` is the set of tasks whose goroutine has already sent its report,
`buffer` the FIFO contents of the `completed` channel, `received` the
reports the coordinator has drained so far in arrival order, and
`committed` the cause committed to the shared child context by the
coordinator (`none` while uncommitted). -/
structure AggState (n : Nat) where
  sent : Finset (Fin n)
  buffer : List (Option GoError)
  received : List (Option GoError)
  committed : Option GoError
  deriving DecidableEq

/-- The state at the return of `NewParallelGoture`: nothing sent, channel
empty, nothing drained, cause uncommitted. -/
def AggState.init (n : Nat) : AggState n := ⟨∅, [], [], none⟩

/-- One interleaving step of the goroutines of `NewParallelGoture`:

* `send`: the goroutine of a task `i` that has not reported yet sends its
  single report into the `completed` channel; a send on a buffered channel
  needs a free slot, hence the guard `s.buffer.length < n` (capacity
  `len(tasks)`);
* `recv`: the coordinator, having drained fewer than `n` reports, takes
  the oldest buffered report (`for i := 0; i < len(tasks); i++` bounds the
  receives by `n`);
* `commit`: after draining all `n` reports the coordinator cancels the
  shared context with `firstError` if the loop recorded one, else with
  `SuccessResult\x7b\x7d` — a first (and only) commit since the cause slot
  is still empty. -/
inductive AggStep {n : Nat} (outcomes : Fin n → TaskOutcome) :
    AggState n → AggState n → Prop
  | send (s : AggState n) (i : Fin n) (hi : i ∉ s.sent)
      (hcap : s.buffer.length < n) :
      AggStep outcomes s
        ⟨insert i s.sent, s.buffer ++ [unitReport (outcomes i)],
          s.received, s.committed⟩
  | recv (s : AggState n) (r : Option GoError) (rest : List (Option GoError))
      (hb : s.buffer = r :: rest) (hr : s.received.length < n) :
      AggStep outcomes s ⟨s.sent, rest, s.received ++ [r], s.committed⟩
  | commit (s : AggState n) (hr : s.received.length = n)
      (hc : s.committed = none) :
      AggStep outcomes s
        ⟨s.sent, s.buffer, s.received, some (coordinatorCommit s.received)⟩

/-- States reachable from the return of `NewParallelGoture`. -/
def ParReachable {n : Nat} (outcomes : Fin n → TaskOutcome) (s : AggState n) :
    Prop :=
  Relation.ReflTransGen (AggStep outcomes) (AggState.init n) s

/-- Inductive invariant of the aggregator: sends are conserved (every sent
report is still buffered or already drained), the coordinator never drains
more than `n` reports, a committed cause only exists once all `n` reports
are drained and is exactly what the coordinator loop computes from the
arrival order, and the reports in flight are precisely the reports of the
tasks that have sent, as a multiset. -/
structure AggInv {n : Nat} (outcomes : Fin n → TaskOutcome) (s : AggState n) :
    Prop where
  count_eq : s.sent.card = s.buffer.length + s.received.length
  recv_le : s.received.length ≤ n
  committed_spec : ∀ c, s.committed = some c →
      s.received.length = n ∧ c = coordinatorCommit s.received
  reports_eq : (↑(s.received ++ s.buffer) : Multiset (Option GoError)) =
      s.sent.val.map fun i => unitReport (outcomes i)

theorem aggInv_init {n : Nat} (outcomes : Fin n → TaskOutcome) :
    AggInv outcomes (AggState.init n) := by
  constructor <;> simp [AggState.init]

theorem aggInv_step {n : Nat} {outcomes : Fin n → TaskOutcome}
    {s s' : AggState n} (h : AggStep outcomes s s')
    (hinv : AggInv outcomes s) : AggInv outcomes s' := by
  obtain ⟨hcount, hrecv, hcomm, hrep⟩ := hinv
  cases h with
  | send i hi hcap =>
      refine ⟨?_, hrecv, fun c hc => hcomm c hc, ?_⟩
      · dsimp only
        simp only [Finset.card_insert_of_not_mem hi, List.length_append,
          List.length_singleton]
        omega
      · dsimp only
        rw [Finset.insert_val_of_not_mem hi, Multiset.map_cons, ← hrep,
          Multiset.cons_coe, Multiset.coe_eq_coe, ← List.append_assoc]
        exact List.perm_append_singleton _ _
  | recv r rest hb hr =>
      rw [hb] at hcount hrep
      refine ⟨?_, ?_, ?_, ?_⟩
      · dsimp only
        simp only [List.length_cons] at hcount
        simp only [List.length_append, List.length_singleton]
        omega
      · dsimp only
        simp only [List.length_append, List.length_singleton]
        omega
      · intro c hc
        rcases hcomm c hc with ⟨hlen, _⟩
        exact absurd hlen (Nat.ne_of_lt hr)
      · dsimp only
        rw [List.append_assoc, List.singleton_append]
        exact hrep
  | commit hr hc =>
      refine ⟨hcount, hrecv, ?_, hrep⟩
      intro c hcse
      simp only [Option.some.injEq] at hcse
      exact ⟨hr, hcse.symm⟩

theorem aggInv_reachable {n : Nat} {outcomes : Fin n → TaskOutcome}
    {s : AggState n} (hs : ParReachable outcomes s) : AggInv outcomes s := by
  induction hs with
  | refl => exact aggInv_init outcomes
  | tail _ hstep ih => exact aggInv_step hstep ih

/-- Once the coordinator has committed the shared cause, no further step
changes it: the cause slot is write-once. -/
theorem committed_stable_step {n : Nat} {outcomes : Fin n → TaskOutcome}
    {s s' : AggState n} {c : GoError} (h : AggStep outcomes s s')
    (hc : s.committed = some c) : s'.committed = some c := by
  cases h with
  | send i hi hcap => exact hc
  | recv r rest hb hr => exact hc
  | commit hr hcn => rw [hcn] at hc; simp at hc

/-- Write-once of the cause along any suffix of a run. -/
theorem committed_stable {n : Nat} {outcomes : Fin n → TaskOutcome}
    {s s' : AggState n} {c : GoError}
    (h : Relation.ReflTransGen (AggStep outcomes) s s')
    (hc : s.committed = some c) : s'.committed = some c := by
  induction h with
  | refl => exact hc
  | tail _ hstep ih => exact committed_stable_step hstep ih

/-- The coordinator's `firstError` variable, once set, is never
overwritten (`firstError == nil` guards the assignment). -/
theorem coordinatorFold_some (e : GoError) (l : List (Option GoError)) :
    coordinatorFold (some e) l = some e := by
  induction l with
  | nil => rfl
  | cons r rest ih => simpa [coordinatorFold] using ih

/-- The coordinator loop computes exactly the first non-nil report in
arrival order. -/
theorem coordinatorFold_eq_firstNonNil (l : List (Option GoError)) :
    coordinatorFold none l = firstNonNil l := by
  induction l with
  | nil => rfl
  | cons r rest ih =>
      cases r with
      | none => simpa [coordinatorFold, firstNonNil] using ih
      | some e => simp [coordinatorFold, firstNonNil, coordinatorFold_some]

/-- The cause the coordinator commits, in terms of the first non-nil
report: that report if one exists, else the success sentinel. -/
theorem coordinatorCommit_eq (reports : List (Option GoError)) :
    coordinatorCommit reports = (firstNonNil reports).getD .successResult := by
  unfold coordinatorCommit
  rw [coordinatorFold_eq_firstNonNil]
  cases firstNonNil reports <;> rfl

/-- What `Wait` returns against the coordinator's committed cause: nil when
no report was non-nil, the first non-nil report otherwise — except that a
first non-nil report equal to the sentinel `SuccessResult\x7b\x7d` is
reported as nil. -/
theorem wait_coordinatorCommit (reports : List (Option GoError)) :
    Goture.Wait (coordinatorCommit reports) =
      match firstNonNil reports with
      | none => none
      | some e => if e = .successResult then none else some e := by
  rw [coordinatorCommit_eq]
  cases h : firstNonNil reports with
  | none => rfl
  | some e => cases e <;> simp [Goture.Wait]

/-- In any committed reachable state, all `n` tasks have sent their single
report, the channel has been fully drained, and the coordinator drained
exactly `n` reports — the reports of the `n` tasks, as a multiset. -/
theorem committed_state_spec {n : Nat} {outcomes : Fin n → TaskOutcome}
    {s : AggState n} {c : GoError} (hs : ParReachable outcomes s)
    (hc : s.committed = some c) :
    s.sent = Finset.univ ∧ s.buffer = [] ∧ s.received.length = n ∧
      c = coordinatorCommit s.received ∧
      (↑s.received : Multiset (Option GoError)) =
        (Finset.univ.val.map fun i => unitReport (outcomes i)) := by
  obtain ⟨hcount, hrecv, hcomm, hrep⟩ := aggInv_reachable hs
  obtain ⟨hlen, hcc⟩ := hcomm c hc
  have hcard_le : s.sent.card ≤ n := by
    simpa using Finset.card_le_univ s.sent
  have hbuf : s.buffer = [] := by
    have : s.buffer.length = 0 := by omega
    exact List.length_eq_zero.mp this
  have huniv : s.sent = Finset.univ := by
    apply Finset.eq_univ_of_card
    simp only [Fintype.card_fin]
    omega
  refine ⟨huniv, hbuf, hlen, hcc, ?_⟩
  rw [hbuf, List.append_nil] at hrep
  rw [hrep, huniv]

/-- A task that has not yet reported always finds a free slot in the
`completed` channel: fewer than `n` of the `n` capacity slots are
occupied.  This is why a producer send never blocks. -/
theorem send_never_blocks {n : Nat} {outcomes : Fin n → TaskOutcome}
    {s : AggState n} (hs : ParReachable outcomes s) {i : Fin n}
    (hi : i ∉ s.sent) : s.buffer.length < n := by
  obtain ⟨hcount, hrecv, hcomm, hrep⟩ := aggInv_reachable hs
  have hlt : s.sent.card < n := by
    have hne : s.sent ≠ Finset.univ := fun h => hi (h ▸ Finset.mem_univ i)
    have := Finset.card_lt_card (Finset.ssubset_univ_iff.mpr hne)
    simpa using this
  omega

/-- The value a `Wait()` caller returns in a given aggregator state:
`Goture.Wait` of the committed cause once the shared context is done,
`none` (outer layer) while `Wait` still blocks on `ctx.Done()`. -/
def waitObservation {n : Nat} (s : AggState n) : Option (Option GoError) :=
  s.committed.map Goture.Wait

/-!
## Concrete runs used as witnesses
-/

/-- One task that returns nil. -/
def wOutcomes1 : Fin 1 → TaskOutcome := fun _ => TaskOutcome.ret none

/-- Run of `wOutcomes1` after the task reported. -/
def wS1a : AggState 1 := ⟨insert 0 ∅, [none], [], none⟩

/-- Run of `wOutcomes1` after the coordinator drained the report. -/
def wS1b : AggState 1 := ⟨insert 0 ∅, [], [none], none⟩

/-- Run of `wOutcomes1` after the coordinator committed. -/
def wFinal1 : AggState 1 := ⟨insert 0 ∅, [], [none], some GoError.successResult⟩

theorem wFinal1_reachable : ParReachable wOutcomes1 wFinal1 := by
  have h1 : AggStep wOutcomes1 (AggState.init 1) wS1a :=
    AggStep.send (AggState.init 1) 0 (by decide) (by decide)
  have h2 : AggStep wOutcomes1 wS1a wS1b :=
    AggStep.recv wS1a none [] rfl (by decide)
  have h3 : AggStep wOutcomes1 wS1b wFinal1 :=
    AggStep.commit wS1b rfl rfl
  exact Relation.ReflTransGen.tail (Relation.ReflTransGen.tail
    (Relation.ReflTransGen.tail Relation.ReflTransGen.refl h1) h2) h3

/-- Two tasks: task 0 fails with an error, task 1 succeeds. -/
def wOutcomes2 : Fin 2 → TaskOutcome :=
  ![TaskOutcome.ret (some (GoError.errorString "boom")), TaskOutcome.ret none]

/-- Run of `wOutcomes2`: after task 0 reported. -/
def wS2a : AggState 2 :=
  ⟨insert 0 ∅, [some (GoError.errorString "boom")], [], none⟩

/-- Run of `wOutcomes2`: after both tasks reported. -/
def wS2b : AggState 2 :=
  ⟨insert 1 (insert 0 ∅), [some (GoError.errorString "boom"), none], [], none⟩

/-- Run of `wOutcomes2`: after the coordinator drained the first report. -/
def wS2c : AggState 2 :=
  ⟨insert 1 (insert 0 ∅), [none], [some (GoError.errorString "boom")], none⟩

/-- Run of `wOutcomes2`: after the coordinator drained both reports. -/
def wS2d : AggState 2 :=
  ⟨insert 1 (insert 0 ∅), [], [some (GoError.errorString "boom"), none], none⟩

/-- Run of `wOutcomes2`: after the coordinator committed the first error. -/
def wFinal2 : AggState 2 :=
  ⟨insert 1 (insert 0 ∅), [], [some (GoError.errorString "boom"), none],
    some (GoError.errorString "boom")⟩

theorem wFinal2_reachable : ParReachable wOutcomes2 wFinal2 := by
  have h1 : AggStep wOutcomes2 (AggState.init 2) wS2a :=
    AggStep.send (AggState.init 2) 0 (by decide) (by decide)
  have h2 : AggStep wOutcomes2 wS2a wS2b :=
    AggStep.send wS2a 1 (by decide) (by decide)
  have h3 : AggStep wOutcomes2 wS2b wS2c :=
    AggStep.recv wS2b (some (GoError.errorString "boom")) [none] rfl (by decide)
  have h4 : AggStep wOutcomes2 wS2c wS2d :=
    AggStep.recv wS2c none [] rfl (by decide)
  have h5 : AggStep wOutcomes2 wS2d wFinal2 :=
    AggStep.commit wS2d rfl rfl
  exact Relation.ReflTransGen.tail (Relation.ReflTransGen.tail
    (Relation.ReflTransGen.tail (Relation.ReflTransGen.tail
      (Relation.ReflTransGen.tail Relation.ReflTransGen.refl h1) h2) h3) h4) h5

/-- Two tasks: task 0 returns the sentinel `SuccessResult\x7b\x7d` as its
error, task 1 fails genuinely. -/
def wOutcomes3 : Fin 2 → TaskOutcome :=
  ![TaskOutcome.ret (some GoError.successResult),
    TaskOutcome.ret (some (GoError.errorString "genuine failure"))]

/-- Run of `wOutcomes3`: after task 0 reported. -/
def wS3a : AggState 2 := ⟨insert 0 ∅, [some GoError.successResult], [], none⟩

/-- Run of `wOutcomes3`: after both tasks reported, sentinel first. -/
def wS3b : AggState 2 :=
  ⟨insert 1 (insert 0 ∅),
    [some GoError.successResult, some (GoError.errorString "genuine failure")],
    [], none⟩

/-- Run of `wOutcomes3`: after the coordinator drained the sentinel. -/
def wS3c : AggState 2 :=
  ⟨insert 1 (insert 0 ∅), [some (GoError.errorString "genuine failure")],
    [some GoError.successResult], none⟩

/-- Run of `wOutcomes3`: after the coordinator drained both reports. -/
def wS3d : AggState 2 :=
  ⟨insert 1 (insert 0 ∅), [],
    [some GoError.successResult, some (GoError.errorString "genuine failure")],
    none⟩

/-- Run of `wOutcomes3`: committed — the sentinel, which arrived first,
occupies the write-once first-error slot. -/
def wFinal3 : AggState 2 :=
  ⟨insert 1 (insert 0 ∅), [],
    [some GoError.successResult, some (GoError.errorString "genuine failure")],
    some GoError.successResult⟩

theorem wFinal3_reachable : ParReachable wOutcomes3 wFinal3 := by
  have h1 : AggStep wOutcomes3 (AggState.init 2) wS3a :=
    AggStep.send (AggState.init 2) 0 (by decide) (by decide)
  have h2 : AggStep wOutcomes3 wS3a wS3b :=
    AggStep.send wS3a 1 (by decide) (by decide)
  have h3 : AggStep wOutcomes3 wS3b wS3c :=
    AggStep.recv wS3b (some GoError.successResult)
      [some (GoError.errorString "genuine failure")] rfl (by decide)
  have h4 : AggStep wOutcomes3 wS3c wS3d :=
    AggStep.recv wS3c (some (GoError.errorString "genuine failure")) [] rfl
      (by decide)
  have h5 : AggStep wOutcomes3 wS3d wFinal3 :=
    AggStep.commit wS3d rfl rfl
  exact Relation.ReflTransGen.tail (Relation.ReflTransGen.tail
    (Relation.ReflTransGen.tail (Relation.ReflTransGen.tail
      (Relation.ReflTransGen.tail Relation.ReflTransGen.refl h1) h2) h3) h4) h5

/-!
## Result-bearing parallel variant (modelled from the spec)

The repository snapshot contains only the plain `Goture` sources; the
result-bearing constructors (`NewGotureWithResult`, `NewParallelWithResult`)
appear in the spec (§4.4, §6) and the package README but their source file
is not present.  The definitions in this section are therefore modelled
from the spec's words.
-/

/-- Modelled from the spec: the outcome of one result-bearing task of
`NewParallelWithResult` — "a task returns (value, error)" (§4.4).  The
source of the result-bearing variant is not in the repository snapshot. -/
structure ResultOutcome (T : Type) where
  value : T
  err : Option GoError

/-- Modelled from the spec: the result slice of `NewParallelWithResult`
(§4.4), whose source is not in the repository snapshot.  The slice starts
default-valued ("some entries may be placeholders") with one slot per
task, and each completing task writes its value at its own submission
index; `arrival` is the completion order.  Out-of-range completion indices
write nothing. -/
def writeResults {T : Type} (tasks : List (ResultOutcome T))
    (arrival : List Nat) (init : List T) : List T :=
  arrival.foldl
    (fun acc i =>
      match tasks[i]? with
      | some o => acc.set i o.value
      | none => acc) init

theorem writeResults_cons {T : Type} (tasks : List (ResultOutcome T))
    (i : Nat) (rest : List Nat) (init : List T) :
    writeResults tasks (i :: rest) init =
      writeResults tasks rest
        (match tasks[i]? with
         | some o => init.set i o.value
         | none => init) := rfl

theorem writeResults_length {T : Type} (tasks : List (ResultOutcome T))
    (arrival : List Nat) (init : List T) :
    (writeResults tasks arrival init).length = init.length := by
  induction arrival generalizing init with
  | nil => rfl
  | cons i rest ih =>
      rw [writeResults_cons, ih]
      cases tasks[i]? <;> simp

/-- A slot whose index never completes keeps its previous contents. -/
theorem writeResults_getElem?_not_mem {T : Type} {tasks : List (ResultOutcome T)}
    {arrival : List Nat} {init : List T} {j : Nat} (hj : j ∉ arrival) :
    (writeResults tasks arrival init)[j]? = init[j]? := by
  induction arrival generalizing init with
  | nil => rfl
  | cons i rest ih =>
      rw [writeResults_cons, ih (fun h => hj (List.mem_cons_of_mem _ h))]
      have hne : i ≠ j := fun h => hj (h ▸ List.mem_cons_self _ _)
      cases tasks[i]? <;> simp [List.getElem?_set_ne hne]

/-- A slot whose task completes holds that task's value, regardless of the
completion order. -/
theorem writeResults_getElem?_mem {T : Type} {tasks : List (ResultOutcome T)}
    {arrival : List Nat} {init : List T} {j : Nat} {o : ResultOutcome T}
    (hj : j ∈ arrival) (hlen : init.length = tasks.length)
    (ho : tasks[j]? = some o) :
    (writeResults tasks arrival init)[j]? = some o.value := by
  induction arrival generalizing init with
  | nil => cases hj
  | cons i rest ih =>
      rw [writeResults_cons]
      by_cases hjr : j ∈ rest
      · refine ih hjr ?_
        cases tasks[i]? <;> simp [hlen]
      · have hij : i = j := by
          rcases List.mem_cons.mp hj with h | h
          · exact h.symm
          · exact absurd h hjr
        subst hij
        rw [ho, writeResults_getElem?_not_mem hjr]
        have hlt : i < init.length := by
          rw [hlen]
          by_contra h
          push_neg at h
          rw [List.getElem?_eq_none h] at ho
          cases ho
        rw [List.getElem?_set_self]
        simp [hlt]

/-- If every report in the channel is nil, the coordinator records no
first error. -/
theorem firstNonNil_eq_none {l : List (Option GoError)}
    (h : ∀ x ∈ l, x = none) : firstNonNil l = none := by
  induction l with
  | nil => rfl
  | cons r rest ih =>
      have hr := h r (List.mem_cons_self r rest)
      subst hr
      simpa [firstNonNil] using ih fun x hx => h x (List.mem_cons_of_mem _ hx)

/-- Modelled from the spec: `Wait()` of `NewParallelWithResult` (§4.4,
whose source is not in the repository snapshot) — the result slice indexed
by submission order together with the aggregate error of §4.2 computed over
the reports in completion order, unwrapped by `Wait` as for the plain
future. -/
def parallelResultWait {T : Type} [Inhabited T]
    (tasks : List (ResultOutcome T)) (arrival : List Nat) :
    List T × Option GoError :=
  (writeResults tasks arrival (List.replicate tasks.length default),
   Goture.Wait (coordinatorCommit (arrival.map fun i =>
     match tasks[i]? with
     | some o => o.err
     | none => none)))

/-- On any cause other than the success sentinel, `Wait` returns the cause
itself. -/
theorem wait_of_ne_sentinel (c : GoError) (h : c ≠ GoError.successResult) :
    Goture.Wait c = some c := by
  cases c with
  | successResult => exact absurd rfl h
  | errorString s => rfl
  | canceled => rfl
  | deadlineExceeded => rfl

/-!
## Claims
-/

/-- **C1** (amended).  For `NewParallelGoture` with `n ≥ 1` tasks, in any
reachable state in which the coordinator has committed cause `c`, the
coordinator has drained exactly `n` reports, `c` is the first non-nil
report in arrival order if any report was non-nil (later errors are
ignored) and the success sentinel otherwise, and `Wait()` returns that
first non-nil report — unless that first non-nil report is the sentinel
`SuccessResult\x7b\x7d` itself, which `Wait()` reports as nil — and nil
when all `n` reports were nil. -/
theorem parallel_first_error_semantics {n : Nat}
    {outcomes : Fin n → TaskOutcome} {s : AggState n} {c : GoError}
    (hn : 1 ≤ n) (hs : ParReachable outcomes s)
    (hc : s.committed = some c) :
    s.received.length = n ∧
    c = (firstNonNil s.received).getD GoError.successResult ∧
    Goture.Wait c =
      (match firstNonNil s.received with
       | none => none
       | some e => if e = GoError.successResult then none else some e) := by
  obtain ⟨-, -, hlen, hcc, -⟩ := committed_state_spec hs hc
  refine ⟨hlen, ?_, ?_⟩
  · rw [hcc, coordinatorCommit_eq]
  · rw [hcc, wait_coordinatorCommit]

/-- **C1** witness: in the committed state of the concrete two-task run
`wOutcomes2`, the coordinator drained both reports and `Wait` returns the
first (and only) error. -/
theorem parallel_first_error_semantics_witness :
    wFinal2.received.length = 2 ∧
    GoError.errorString "boom" =
      (firstNonNil wFinal2.received).getD GoError.successResult ∧
    Goture.Wait (GoError.errorString "boom") =
      (match firstNonNil wFinal2.received with
       | none => none
       | some e => if e = GoError.successResult then none else some e) :=
  parallel_first_error_semantics (by decide) wFinal2_reachable rfl

/-- **C1** counterexample: a reachable one-task run whose task returns the
non-nil error `SuccessResult\x7b\x7d`.  The coordinator records it as the
first non-nil error and commits it, yet `Wait()` returns nil rather than
that first error, so the claim as stated fails. -/
theorem parallel_first_error_semantics_cex :
    firstNonNil [some GoError.successResult] = some GoError.successResult ∧
    coordinatorCommit [some GoError.successResult] = GoError.successResult ∧
    Goture.Wait (coordinatorCommit [some GoError.successResult]) = none := by
  decide

/-- **C2**.  For `NewParallelGoture` with `n ≥ 1` tasks (and the caller's
parent context not independently cancelled, which is the model's scope):
in every reachable state, if the shared context's cause has been committed
then every one of the `n` tasks has already delivered its report (so the
commit — and hence any non-nil return from `Wait()` — happens only after
all `n` reported); contrapositively, while any task has not yet reported,
the shared child context passed to its siblings is uncancelled, whatever
errors the other tasks report. -/
theorem parallel_no_early_commit {n : Nat} {outcomes : Fin n → TaskOutcome}
    {s : AggState n} (hn : 1 ≤ n) (hs : ParReachable outcomes s) :
    (∀ c, s.committed = some c →
      (∀ i : Fin n, i ∈ s.sent) ∧ s.received.length = n) ∧
    ((∃ i : Fin n, i ∉ s.sent) → s.committed = none) := by
  constructor
  · intro c hc
    obtain ⟨huniv, -, hlen, -, -⟩ := committed_state_spec hs hc
    exact ⟨fun i => huniv ▸ Finset.mem_univ i, hlen⟩
  · intro ⟨i, hi⟩
    cases hcm : s.committed with
    | none => rfl
    | some c =>
        obtain ⟨huniv, -, -, -, -⟩ := committed_state_spec hs hcm
        exact absurd (huniv ▸ Finset.mem_univ i) hi

/-- **C2** witness: in the committed state of the two-task run
`wOutcomes2` — in which task 0 failed — both tasks delivered their
reports before the commit. -/
theorem parallel_no_early_commit_witness :
    ((0 : Fin 2) ∈ wFinal2.sent ∧ (1 : Fin 2) ∈ wFinal2.sent) ∧
    wFinal2.received.length = 2 := by
  have h := parallel_no_early_commit (by decide) wFinal2_reachable
  obtain ⟨hall, hlen⟩ := h.1 (GoError.errorString "boom") rfl
  exact ⟨⟨hall 0, hall 1⟩, hlen⟩

/-- **C3** (amended).  For a task passed to `NewGoture` that returns the
non-nil error `e` — with a parent context that is not cancelled before the
commit — `Wait()` returns exactly `e`, provided `e` is not the sentinel
`SuccessResult\x7b\x7d` (which `Wait()` reports as nil); a task that
returns nil yields a nil `Wait()`. -/
theorem single_task_wait (e : GoError) (he : e ≠ GoError.successResult) :
    Goture.Wait (committedCause none
      (newGotureCommit (TaskOutcome.ret (some e)))) = some e ∧
    Goture.Wait (committedCause none
      (newGotureCommit (TaskOutcome.ret none))) = none := by
  exact ⟨wait_of_ne_sentinel e he, rfl⟩

/-- **C3** witness at a concrete error and the nil-returning task. -/
theorem single_task_wait_witness :
    Goture.Wait (committedCause none (newGotureCommit
      (TaskOutcome.ret (some (GoError.errorString "task failed"))))) =
      some (GoError.errorString "task failed") ∧
    Goture.Wait (committedCause none
      (newGotureCommit (TaskOutcome.ret none))) = none :=
  single_task_wait (GoError.errorString "task failed") (by decide)

/-- **C3** counterexample: the exported `SuccessResult\x7b\x7d` is a
non-nil error a task can return, yet `Wait()` returns nil for it, not that
error, so the claim as stated fails. -/
theorem single_task_wait_cex :
    Goture.Wait (committedCause none (newGotureCommit
      (TaskOutcome.ret (some GoError.successResult)))) = none ∧
    some GoError.successResult ≠ (none : Option GoError) := by
  decide

/-- **C4** (amended).  For a task that panics with value `v` (parent not
cancelled before the commit), the boundary intercepts it and converts it:
a value satisfying the error interface is reused verbatim, any other value
is formatted into an error carrying its rendering; in the single-task
future the boundary commits the converted error as the cause and `Wait()`
returns it — provided the converted error is not the sentinel
`SuccessResult\x7b\x7d`, which `Wait()` reports as nil — and in the
parallel future the boundary instead enqueues the converted error as the
unit's single report to the completion channel. -/
theorem panic_boundary_wait (v : PanicValue)
    (hv : makeErrorFromPanic v ≠ GoError.successResult) :
    Goture.Wait (committedCause none
      (newGotureCommit (TaskOutcome.panics v))) =
      some (makeErrorFromPanic v) ∧
    unitReport (TaskOutcome.panics v) = some (makeErrorFromPanic v) ∧
    (∀ e : GoError, makeErrorFromPanic (PanicValue.errValue e) = e) ∧
    (∀ s : String,
      makeErrorFromPanic (PanicValue.nonError s) = GoError.errorString s) := by
  exact ⟨wait_of_ne_sentinel _ hv, rfl, fun e => rfl, fun s => rfl⟩

/-- **C4** witness: a panic with the non-error value rendered "42" is
formatted into an error preserving that rendering, and `Wait` returns it.
-/
theorem panic_boundary_wait_witness :
    Goture.Wait (committedCause none (newGotureCommit
      (TaskOutcome.panics (PanicValue.nonError "42")))) =
      some (GoError.errorString "42") ∧
    unitReport (TaskOutcome.panics (PanicValue.nonError "42")) =
      some (GoError.errorString "42") :=
  have h := panic_boundary_wait (PanicValue.nonError "42") (by decide)
  ⟨h.1, h.2.1⟩

/-- **C4** counterexample: a task that panics with the error value
`SuccessResult\x7b\x7d`.  The boundary reuses it verbatim and commits it,
but `Wait()` then returns nil — no error reflecting the panic value — so
the claim as stated fails. -/
theorem panic_boundary_wait_cex :
    Goture.Wait (committedCause none (newGotureCommit
      (TaskOutcome.panics (PanicValue.errValue GoError.successResult)))) =
      none := by
  decide

/-- **C5** (amended).  `NewParallelGoture` with zero tasks, when the
parent context is not already cancelled at the call, synchronously returns
a future whose context is committed with the success sentinel, and
`Wait()` on it returns nil.  (The zero-task branch spawns no goroutine;
`newParallelGotureZeroCause` is its synchronous effect.) -/
theorem parallel_zero_tasks :
    newParallelGotureZeroCause none = GoError.successResult ∧
    Goture.Wait (newParallelGotureZeroCause none) = none := by
  decide

/-- **C5** counterexample: if the parent context is already cancelled
(here: an expired deadline, cause `context.DeadlineExceeded`), the
zero-task future's context is committed with the parent's cause, not with
Success, and `Wait()` returns non-nil — the claim as stated fails. -/
theorem parallel_zero_tasks_cex :
    newParallelGotureZeroCause (some GoError.deadlineExceeded) =
      GoError.deadlineExceeded ∧
    Goture.Wait (newParallelGotureZeroCause (some GoError.deadlineExceeded)) =
      some GoError.deadlineExceeded := by
  decide

/-- **C6**.  For `NewParallelGoture` with `n ≥ 1` tasks: every execution
unit sends exactly one value into the `completed` channel (the task's
returned value, or on a panic the single converted error — never both);
in every reachable state the number of sends performed so far (values
buffered plus values drained) never exceeds the capacity `n` the channel
is created with, it equals `n` exactly once the coordinator has committed,
and a unit that has not yet sent always finds a free slot — so no producer
send ever blocks. -/
theorem parallel_channel_capacity {n : Nat} {outcomes : Fin n → TaskOutcome}
    {s : AggState n} (hn : 1 ≤ n) (hs : ParReachable outcomes s) :
    (∀ i : Fin n, (unitSends (outcomes i)).length = 1) ∧
    s.buffer.length + s.received.length ≤ n ∧
    (∀ c, s.committed = some c →
      s.buffer.length + s.received.length = n) ∧
    (∀ i : Fin n, i ∉ s.sent → s.buffer.length < n) := by
  obtain ⟨hcount, hrecv, hcomm, hrep⟩ := aggInv_reachable hs
  have hcard_le : s.sent.card ≤ n := by
    simpa using Finset.card_le_univ s.sent
  refine ⟨fun i => rfl, by omega, ?_, fun i hi => send_never_blocks hs hi⟩
  intro c hc
  obtain ⟨-, hbuf, hlen, -, -⟩ := committed_state_spec hs hc
  rw [hbuf, hlen]
  simp

/-- **C6** witness: along the concrete two-task run, in the committed
state the two sends fill exactly the capacity-2 channel's history, and
each unit's send list has length one. -/
theorem parallel_channel_capacity_witness :
    (unitSends (wOutcomes2 0)).length = 1 ∧
    wFinal2.buffer.length + wFinal2.received.length ≤ 2 ∧
    wFinal2.buffer.length + wFinal2.received.length = 2 := by
  have h := parallel_channel_capacity (by decide) wFinal2_reachable
  exact ⟨h.1 0, h.2.1, h.2.2.1 (GoError.errorString "boom") rfl⟩

/-- **C7** (modelled from the spec — the source of
`NewParallelWithResult` is not in the repository snapshot).  For the
parallel result-bearing variant: for any list of tasks and any completion
order that is a permutation of the submission indices, if no task fails
then `Wait()` returns the values in submission-index order together with a
nil error, regardless of the completion order. -/
theorem parallel_result_order {T : Type} [Inhabited T]
    (tasks : List (ResultOutcome T)) (arrival : List Nat)
    (hperm : arrival.Perm (List.range tasks.length))
    (hok : ∀ o ∈ tasks, o.err = none) :
    parallelResultWait tasks arrival =
      (tasks.map ResultOutcome.value, none) := by
  unfold parallelResultWait
  have hmem : ∀ j : Nat, j ∈ arrival ↔ j < tasks.length := by
    intro j
    rw [hperm.mem_iff, List.mem_range]
  have h1 : writeResults tasks arrival (List.replicate tasks.length default) =
      tasks.map ResultOutcome.value := by
    apply List.ext_getElem?
    intro k
    by_cases hk : k < tasks.length
    · have hko : tasks[k]? = some tasks[k] := List.getElem?_eq_getElem hk
      rw [writeResults_getElem?_mem ((hmem k).mpr hk)
        (List.length_replicate ..) hko]
      rw [List.getElem?_map, hko]
      rfl
    · push_neg at hk
      rw [List.getElem?_eq_none, List.getElem?_eq_none]
      · simpa using hk
      · rw [writeResults_length, List.length_replicate]
        exact hk
  have h2 : firstNonNil (arrival.map fun i =>
      match tasks[i]? with
      | some o => o.err
      | none => none) = none := by
    apply firstNonNil_eq_none
    intro x hx
    rcases List.mem_map.mp hx with ⟨i, hi, hxi⟩
    have hilt : i < tasks.length := (hmem i).mp hi
    have hio : tasks[i]? = some tasks[i] := List.getElem?_eq_getElem hilt
    rw [← hxi, hio]
    exact hok tasks[i] (List.getElem_mem hilt)
  rw [h1, wait_coordinatorCommit, h2]

/-- **C7** witness: tasks yielding 10, 20, 30 at indices 0, 1, 2,
completing in the order 2, 0, 1, still produce `([10, 20, 30], nil)`. -/
theorem parallel_result_order_witness :
    parallelResultWait
      [ResultOutcome.mk 10 none, ResultOutcome.mk 20 none,
        ResultOutcome.mk (30 : Nat) none] [2, 0, 1] =
      ([10, 20, 30], none) :=
  parallel_result_order
    [ResultOutcome.mk 10 none, ResultOutcome.mk 20 none,
      ResultOutcome.mk (30 : Nat) none] [2, 0, 1]
    (by decide) (by decide)

/-- **C8**.  Once the shared context's cause is committed to `c`, it stays
committed to `c` along every further step of the run, and every `Wait()`
call — repeated or concurrent, observing the state at commit time or any
later state — returns the identical outcome `Goture.Wait c`, a function of
the committed cause alone. -/
theorem wait_deterministic {n : Nat} {outcomes : Fin n → TaskOutcome}
    {s s' : AggState n} {c : GoError}
    (hs : ParReachable outcomes s) (hc : s.committed = some c)
    (hsteps : Relation.ReflTransGen (AggStep outcomes) s s') :
    waitObservation s = some (Goture.Wait c) ∧
    waitObservation s' = some (Goture.Wait c) := by
  constructor
  · rw [waitObservation, hc]
    rfl
  · rw [waitObservation, committed_stable hsteps hc]
    rfl

/-- **C8** witness: in the committed state of the concrete two-task run,
any `Wait` caller observes `some (errorString "boom")`, now and at every
later point. -/
theorem wait_deterministic_witness :
    waitObservation wFinal2 = some (some (GoError.errorString "boom")) := by
  have h := wait_deterministic wFinal2_reachable rfl Relation.ReflTransGen.refl
  exact h.1

/-- **C9**.  The exported `SuccessResult\x7b\x7d` satisfies the error
interface, is non-nil, and is unwrapped to nil by `Wait()`; consequently a
failing run can be observed as success.  Concretely, in the reachable
committed state of the two-task run `wOutcomes3` — task 0 returns
`SuccessResult\x7b\x7d` as its error, task 1 fails genuinely, and the
sentinel report arrives first — the coordinator records the sentinel in
the write-once first-error slot, commits it as the cause, and every
`Wait()` caller observes nil despite the sibling's failure.  Likewise a
single task that returns, or panics with, `SuccessResult\x7b\x7d` is
observed by `Wait()` as success. -/
theorem success_sentinel_masks_failure :
    ParReachable wOutcomes3 wFinal3 ∧
    wFinal3.received =
      [some GoError.successResult,
        some (GoError.errorString "genuine failure")] ∧
    coordinatorFold none wFinal3.received = some GoError.successResult ∧
    wFinal3.committed = some GoError.successResult ∧
    waitObservation wFinal3 = some none ∧
    Goture.Wait (committedCause none (newGotureCommit
      (TaskOutcome.ret (some GoError.successResult)))) = none ∧
    Goture.Wait (committedCause none (newGotureCommit
      (TaskOutcome.panics (PanicValue.errValue GoError.successResult)))) =
      none :=
  ⟨wFinal3_reachable, rfl, by decide, rfl, rfl, rfl, rfl⟩

/-- **C10** (amended).  `NewParallelGoture` with zero tasks and a parent
context already cancelled with cause `p`: the derived child context
inherits `p` before the library's Success commit (first commit wins), and
`Wait()` returns `p` rather than nil — provided `p` is not itself the
sentinel `SuccessResult\x7b\x7d`, which `Wait()` reports as nil. -/
theorem parallel_zero_tasks_canceled_parent (p : GoError)
    (hp : p ≠ GoError.successResult) :
    newParallelGotureZeroCause (some p) = p ∧
    Goture.Wait (newParallelGotureZeroCause (some p)) = some p := by
  exact ⟨rfl, wait_of_ne_sentinel p hp⟩

/-- **C10** witness: a parent cancelled with cause `context.Canceled`. -/
theorem parallel_zero_tasks_canceled_parent_witness :
    newParallelGotureZeroCause (some GoError.canceled) = GoError.canceled ∧
    Goture.Wait (newParallelGotureZeroCause (some GoError.canceled)) =
      some GoError.canceled :=
  parallel_zero_tasks_canceled_parent GoError.canceled (by decide)

/-- **C10** counterexample: a parent cancelled with the sentinel cause
`SuccessResult\x7b\x7d`.  The child still inherits the parent's cause
(first commit wins), but `Wait()` returns nil, not the parent's cause, so
the claim as stated fails. -/
theorem parallel_zero_tasks_canceled_parent_cex :
    newParallelGotureZeroCause (some GoError.successResult) =
      GoError.successResult ∧
    Goture.Wait (newParallelGotureZeroCause (some GoError.successResult)) =
      none := by
  decide
